import Mathlib

/-!
Shallow embedding of the SparseSC inference core
(`SparseSC/utils/metrics_utils.py` and `SparseSC/utils/penalty_utils.py`).
Numeric values are modelled by `ℚ`; numpy arrays by `List ℚ`;
matrices by `List (List ℚ)`.  Each definition mirrors one function or
code fragment of the source, with the source line noted.
-/

/-- Python's built-in `round`: round half to even (banker's rounding). -/
def pyRound (q : ℚ) : Int :=
  let f := ⌊q⌋
  let frac := q - f
  if frac < 1/2 then f
  else if 1/2 < frac then f + 1
  else if f % 2 = 0 then f else f + 1

/-- Numpy's `np.sign` on a scalar. -/
def npSign (q : ℚ) : ℚ :=
  if 0 < q then 1 else if q < 0 then -1 else 0

/-- Numpy's `np.mean` of a 1-D array. -/
def npMean (l : List ℚ) : ℚ := l.sum / l.length

/-- Numpy's `np.var` (population variance) of a 1-D array. -/
def npVar (l : List ℚ) : ℚ := npMean (l.map (fun x => (x - npMean l) ^ 2))

/-- Numpy's `np.sort` on a 1-D array: ascending order. -/
def npSort (l : List ℚ) : List ℚ := l.insertionSort (· ≤ ·)

/-! ### metrics_utils.py : combination counting and the sampling branch -/

/-- Product of Python `range(start, stop, -1)`, i.e. start, start-1, ..., stop+1
(empty product 1 when start ≤ stop).  Used by `_ncr` (metrics_utils.py:169). -/
def prodRangeDown (start stop : Int) : Int :=
  (List.range (start - stop).toNat).foldl (fun acc i => acc * (start - i)) 1

/-- Product of Python `range(1, r+1)`, i.e. 1, 2, ..., r (empty product 1 when
r ≤ 0).  Used by `_ncr` (metrics_utils.py:170). -/
def prodRangeUp (r : Int) : Int :=
  (List.range r.toNat).foldl (fun acc i => acc * (1 + i)) 1

/-- Embeds `_ncr(n, r)` (metrics_utils.py:163-171): `r = min(r, n-r)`;
numerator is the falling product `range(n, n-r, -1)`, denominator `r!`,
combined with Python floor division. -/
def ncr (n r : Int) : Int :=
  let r' := min r (n - r)
  Int.fdiv (prodRangeDown n (n - r')) (prodRangeUp r')

/-- Embeds the branch condition at metrics_utils.py:174,
`max_n_pl > 0 & n_pl > max_n_pl`.  Python's `&` binds tighter than
comparisons, so this is the chained comparison
`max_n_pl > (0 & n_pl) > max_n_pl`, i.e.
`max_n_pl > (0 & n_pl) and (0 & n_pl) > max_n_pl` with `&` bitwise. -/
def placeboBranchCond (max_n_pl n_pl : Int) : Bool :=
  decide (Int.land 0 n_pl < max_n_pl) && decide (max_n_pl < Int.land 0 n_pl)

/-- The two kinds of combination iterator built at metrics_utils.py:175-178:
`itertools.combinations(range(N0), N1)` (exact lexicographic enumeration)
or `_random_combinations(num, N0, N1)` (num independent uniform draws of a
size-N1 subset, metrics_utils.py:269-279). -/
inductive CombIter : Type
  | exactCombinations (N0 N1 : Nat)
  | randomCombinations (num : Int) (N0 N1 : Nat)
deriving DecidableEq

/-- Embeds metrics_utils.py:173-179: compute `n_pl = _ncr(N0, N1)`, then pick
the combination iterator and `comb_len` according to the branch condition. -/
def placeboCombSetup (N0 N1 : Nat) (max_n_pl : Int) : CombIter × Int :=
  let n_pl := ncr N0 N1
  if placeboBranchCond max_n_pl n_pl then
    (CombIter.exactCombinations N0 N1, max_n_pl)
  else
    (CombIter.randomCombinations n_pl N0 N1, n_pl)

/-- The `comb_len` recorded in the returned `PlaceboResults`
(metrics_utils.py:263): second component of the setup. -/
def placeboCombLen (N0 N1 : Nat) (max_n_pl : Int) : Int :=
  (placeboCombSetup N0 N1 max_n_pl).2

/-! ### metrics_utils.py : explicit input validation -/

/-- Embeds the assert at metrics_utils.py:219,
`assert 0 < level < 1 and level > 0`: true iff the assert passes. -/
def levelAssertPasses (level : ℚ) : Bool :=
  (decide (0 < level) && decide (level < 1)) && decide (0 < level)

/-- Collects all explicit input validation performed by
`_gen_placebo_stats_from_diffs` (metrics_utils.py:120-266) on the shapes
(N0, N1, T1) and on `level`: the source contains exactly one explicit check,
the assert on `level` at line 219, and it runs only when `ret_CI` is true.
No shape validation is present anywhere in the function.  Returns true iff
some explicit validation rejects the input. -/
def placeboExplicitValidationRejects
    (N0 N1 T1 : Nat) (ret_CI : Bool) (level : ℚ) : Bool :=
  ret_CI && !(levelAssertPasses level)

/-- Precondition of the external library call `np.random.choice(n, c,
replace=False)` used by `_random_combinations` (metrics_utils.py:279):
numpy raises a ValueError when asked for a sample larger than the
population.  Modelled from the numpy contract (external collaborator). -/
def npRandomChoiceOk (n c : Nat) : Bool := decide (c ≤ n)

/-! ### metrics_utils.py : order statistics for the confidence interval -/

/-- Embeds metrics_utils.py:220-223: `alpha = 1 - level`;
`p2min = 2 / n_pl`; `alpha_ind = max((1, round(alpha / p2min)))`. -/
def alphaInd (level : ℚ) (n_pl : Nat) : Int :=
  let alpha := 1 - level
  let p2min : ℚ := 2 / (n_pl : ℚ)
  max 1 (pyRound (alpha / p2min))

/-- The 0-based index used for the low bound at metrics_utils.py:228:
`sorted_eff[alpha_ind]`. -/
def genCILowIndex (alpha_ind : Nat) : Nat := alpha_ind

/-- The 0-based index used for the high bound at metrics_utils.py:229:
`sorted_eff[(npl + 1) - alpha_ind]`. -/
def genCIHighIndex (npl alpha_ind : Nat) : Nat := npl + 1 - alpha_ind

/-- Low order statistic read by `_gen_CI` (metrics_utils.py:227-228). -/
def genCILow (placebo_effects : List ℚ) (alpha_ind : Nat) : ℚ :=
  (npSort placebo_effects).getD (genCILowIndex alpha_ind) 0

/-- High order statistic read by `_gen_CI` (metrics_utils.py:227-229). -/
def genCIHigh (placebo_effects : List ℚ) (alpha_ind : Nat) : ℚ :=
  (npSort placebo_effects).getD
    (genCIHighIndex placebo_effects.length alpha_ind) 0

/-- Embeds `_gen_CI` (metrics_utils.py:225-240).  Returns the interval
`(effect - high, effect - low)` together with the flag of the domain
warning issued at lines 230-239 (`null_is_zero and np.sign(low) ==
np.sign(high) and low != 0 and high != 0`).  The out-of-range array reads
of the source are modelled with a default value; `genCILowIndex` /
`genCIHighIndex` record the indices actually used. -/
def genCI (placebo_effects : List ℚ) (alpha_ind : Nat) (effect : ℚ)
    (null_is_zero : Bool) : (ℚ × ℚ) × Bool :=
  let low := genCILow placebo_effects alpha_ind
  let high := genCIHigh placebo_effects alpha_ind
  let warnFlag := null_is_zero && decide (npSign low = npSign high)
      && decide (low ≠ 0) && decide (high ≠ 0)
  ((effect - high, effect - low), warnFlag)

/-- Call site metrics_utils.py:244: the per-period vector interval, with
`null_is_zero` left at its default `True`. -/
def genCIVecCall (col : List ℚ) (alpha_ind : Nat) (eff : ℚ) :
    (ℚ × ℚ) × Bool :=
  genCI col alpha_ind eff true

/-- Call site metrics_utils.py:247: the average-effect interval, with
`null_is_zero` left at its default `True`. -/
def genCIAvgCall (pl : List ℚ) (alpha_ind : Nat) (eff : ℚ) :
    (ℚ × ℚ) × Bool :=
  genCI pl alpha_ind eff true

/-- Call site metrics_utils.py:249-251: the RMS interval, called with
`null_is_zero=False`. -/
def genCIRmsCall (pl : List ℚ) (alpha_ind : Nat) (eff : ℚ) :
    (ℚ × ℚ) × Bool :=
  genCI pl alpha_ind eff false

/-! ### metrics_utils.py : the counting loop and the p-value -/

/-- Embeds the accumulation `rms_joint_p += placebo_rms_joint_effect >=
rms_joint_effect` over the loop at metrics_utils.py:193-206 (numpy adds the
comparison as 0/1). -/
def rmsCounter (placebo_rms_list : List ℚ) (rms_joint_effect : ℚ) : ℚ :=
  placebo_rms_list.foldl
    (fun acc p => acc + (if rms_joint_effect ≤ p then 1 else 0)) 0

/-- Embeds the accumulation `avg_joint_p += abs(placebo_avg_joint_effect) >=
abs(avg_joint_effect)` over the same loop. -/
def avgCounter (placebo_avg_list : List ℚ) (avg_joint_effect : ℚ) : ℚ :=
  placebo_avg_list.foldl
    (fun acc p => acc + (if |avg_joint_effect| ≤ |p| then 1 else 0)) 0

/-- Embeds the elementwise accumulation `vec_p += abs(placebo_effect_vec) >=
abs(effect_vec)` at period `t`: numpy applies the comparison per period. -/
def vecCounterAt (placebo_vecs : List (List ℚ)) (effect_vec : List ℚ)
    (t : Nat) : ℚ :=
  placebo_vecs.foldl
    (fun acc pv =>
      acc + (if |effect_vec.getD t 0| ≤ |pv.getD t 0| then 1 else 0)) 0

/-- Embeds `_calculate_p_value` (metrics_utils.py:282-289):
`addition = int(incl_actual_in_set)`;
returns `(npl_at_least_as_large + addition) / (npl + addition)`. -/
def calculatePValue (npl_at_least_as_large npl : ℚ)
    (incl_actual_in_set : Bool) : ℚ :=
  let addition : ℚ := if incl_actual_in_set then 1 else 0
  (npl_at_least_as_large + addition) / (npl + addition)

/-! ### metrics_utils.py : membership tests on CI_int and EstResultCI -/

/-- A scalar-or-vector value as held in `CI_int.ci_low` / `ci_high`. -/
inductive PyVal : Type
  | scalar (q : ℚ)
  | vector (l : List ℚ)
deriving DecidableEq

/-- Numpy's `.size` of a scalar or array (CI_int stores either). -/
def PyVal.size : PyVal → Nat
  | .scalar _ => 1
  | .vector l => l.length

/-- First scalar entry, used to model the chained comparison
`self.ci_low < x < self.ci_high` in the size ≤ 1 case. -/
def PyVal.first : PyVal → ℚ
  | .scalar q => q
  | .vector l => l.getD 0 0

/-- A Python object as returned by a `__contains__` body: either a genuine
bool or an exception *instance* that was returned instead of raised. -/
inductive PyObj : Type
  | bool (b : Bool)
  | excInstance (msg : String)
deriving DecidableEq

/-- Python truthiness as applied by the `in` operator to the value returned
by `__contains__`: a plain bool is itself; an exception instance is an
ordinary object with default truthiness `True`. -/
def pyTruthy : PyObj → Bool
  | .bool b => b
  | .excInstance _ => true

/-- Embeds the body of `CI_int.__contains__` (metrics_utils.py:41-49):
when `self.ci_low.size > 1` it RETURNS (does not raise) a `RuntimeError`
instance; otherwise it returns the chained comparison
`self.ci_low < x < self.ci_high`.  `Except.error` would mark a raised
exception; this body raises nothing. -/
def CIIntContainsBody (ci_low ci_high : PyVal) (x : ℚ) :
    Except String PyObj :=
  if ci_low.size > 1 then
    Except.ok (PyObj.excInstance
      "`in` is not defined for more than one Confidence Interval")
  else
    Except.ok (PyObj.bool
      (decide (ci_low.first < x) && decide (x < ci_high.first)))

/-- The result of `x in ci` for a `CI_int`: Python coerces the value
returned by `__contains__` to bool with truthiness; a raised exception
would propagate as `Except.error`. -/
def CIIntIn (ci_low ci_high : PyVal) (x : ℚ) : Except String Bool :=
  (CIIntContainsBody ci_low ci_high x).map pyTruthy

/-- Embeds `EstResultCI.__contains__` (metrics_utils.py:89-95): with no
confidence interval it RAISES `RuntimeError`; otherwise it delegates to
`x in self.ci`. -/
def estResultCIIn (ci : Option (PyVal × PyVal)) (x : ℚ) :
    Except String Bool :=
  match ci with
  | none => Except.error "EstResultCI does not contain a confidence interval"
  | some (lo, hi) => CIIntIn lo hi x

/-! ### penalty_utils.py : data model -/

/-- A matrix as handled by `np.asmatrix`: a list of rows of rationals. -/
abbrev Mat := List (List ℚ)

/-- Whether a list of rows is coercible to a 2-D matrix (rectangular). -/
def isMatrix (m : Mat) : Bool :=
  match m with
  | [] => true
  | r :: rs => rs.all (fun r2 => r2.length == r.length)

/-- Number of rows, `X.shape[0]`. -/
def matRows (m : Mat) : Nat := m.length

/-- Number of columns, `X.shape[1]`. -/
def matCols (m : Mat) : Nat := (m.headD []).length

/-- Embeds `w_pen_guestimate` (penalty_utils.py:15-20) and the default at
penalty_utils.py:65-66: `np.mean(np.var(X, axis=0))`, the mean across
covariates of each covariate's variance across units. -/
def wPenGuestimate (X : Mat) : ℚ :=
  npMean ((List.range (matCols X)).map
    (fun j => npVar (X.map (fun r => r.getD j 0))))

/-- Failure signals of `get_max_v_pen` and its collaborators: named
invalid-argument failures (`ValueError`, `TypeError`), the collaborators'
resource-exhaustion signal (`MemoryError`), the translated failure
(`RuntimeError`), and a generic numeric failure. -/
inductive PenErr : Type
  | valueError (msg : String)
  | typeError (msg : String)
  | memoryError
  | runtimeError (msg : String)
  | genericError (msg : String)
deriving DecidableEq

/-- Result of `get_max_v_pen`: a scalar bound for scalar `w_pen`, a list of
bounds for an iterable `w_pen`. -/
inductive PenRes : Type
  | scalar (q : ℚ)
  | list (l : List ℚ)
deriving DecidableEq

/-- The three external gradient strategies (`loo_v_matrix`, `fold_v_matrix`,
`ct_v_matrix` from fit_loo / fit_fold / fit_ct — external collaborators of
this repository).  Each is an abstract function of the data and `w_pen`
(with `return_max_v_pen=True` and the strategy-specific options fixed),
returning a penalty boundary or a failure signal; `ct` also receives the
control/treated index partition. -/
structure GradStrategies : Type where
  loo_v_matrix : Mat → Mat → ℚ → Except PenErr ℚ
  fold_v_matrix : Mat → Mat → ℚ → Except PenErr ℚ
  ct_v_matrix : Mat → Mat → List Nat → List Nat → ℚ → Except PenErr ℚ

/-- The `w_pen` argument: omitted (`None`), a single number, or an iterable
of numbers (Python discriminates via `iter(w_pen)`, penalty_utils.py:89,122:
numbers are not iterable, sequences are). -/
inductive WPen : Type
  | omitted
  | scalar (q : ℚ)
  | iter (l : List ℚ)
deriving DecidableEq

/-- Embeds penalty_utils.py:65-66 plus the `iter` dispatch: an omitted
`w_pen` defaults to the guestimate (a scalar); otherwise the scalar/iterable
distinction is kept. -/
def resolveWPen (X : Mat) : WPen → ℚ ⊕ List ℚ
  | .omitted => Sum.inl (wPenGuestimate X)
  | .scalar q => Sum.inl q
  | .iter l => Sum.inr l

/-- Embeds the parameter QC of `get_max_v_pen` (penalty_utils.py:43-64 and,
when treated data is present, 70-83), in source order.  Returns the first
failure, or `none` when all checks pass. -/
def penaltyQC (X Y : Mat) (X_treat Y_treat : Option Mat) : Option PenErr :=
  if !isMatrix X then some (.valueError "X is not coercible to a matrix")
  else if !isMatrix Y then some (.valueError "Y is not coercible to a matrix")
  else if X_treat.isSome != Y_treat.isSome then
    some (.valueError
      "parameters `X_treat` and `Y_treat` must both be Matrices or None")
  else if matCols X == 0 then some (.valueError "X.shape[1] == 0")
  else if matCols Y == 0 then some (.valueError "Y.shape[1] == 0")
  else if matRows X != matRows Y then
    some (.valueError "X and Y have different number of rows")
  else
    match X_treat, Y_treat with
    | some XT, some YT =>
      if !isMatrix XT then some (.typeError "X_treat is not a matrix")
      else if !isMatrix YT then some (.typeError "Y_treat is not a matrix")
      else if matCols XT == 0 then some (.valueError "X_treat.shape[1] == 0")
      else if matCols YT == 0 then some (.valueError "Y_treat.shape[1] == 0")
      else if matRows XT != matRows YT then
        some (.valueError
          "X_treat and Y_treat have different number of rows")
      else none
    | _, _ => none

/-- Message of the translated failure at penalty_utils.py:145-148,179-182. -/
def looMemMsg : String :=
  "MemoryError encountered.  Try setting `grad_splits` parameter to reduce memory requirements."

/-- Embeds the `try/except MemoryError` wrapper around the leave-one-out
calls (penalty_utils.py:135-148 and 166-182): a `MemoryError` becomes a
`RuntimeError` with `looMemMsg`; everything else passes through. -/
def looTranslate {α : Type} : Except PenErr α → Except PenErr α
  | .error .memoryError => .error (.runtimeError looMemMsg)
  | r => r

/-- Python list comprehension over a fallible call: elements evaluated in
order, the first raised failure propagating. -/
def mapExcept {α : Type} (f : ℚ → Except PenErr α) :
    List ℚ → Except PenErr (List α)
  | [] => .ok []
  | x :: xs => do
    let y ← f x
    let ys ← mapExcept f xs
    pure (y :: ys)

/-- The `ct_v_matrix` call of the treated branch (penalty_utils.py:85-117):
stacked data `vstack((X, X_treat))`, `vstack((Y, Y_treat))`, control indices
`arange(X.shape[0])`, treated indices `arange(X.shape[0], X.shape[0] +
X_treat.shape[0])`. -/
def ctCall (S : GradStrategies) (X Y XT YT : Mat) (w : ℚ) :
    Except PenErr ℚ :=
  S.ct_v_matrix (X ++ XT) (Y ++ YT)
    (List.range (matRows X))
    ((List.range (matRows XT)).map (fun i => matRows X + i)) w

/-- The `X_treat is not None` discrimination of penalty_utils.py:68 (the
QC at penalty_utils.py:52-55 has already ensured both-or-neither). -/
def treatPair : Option Mat → Option Mat → Option (Mat × Mat)
  | some XT, some YT => some (XT, YT)
  | _, _ => none

/-- One scalar-`w_pen` dispatch of `get_max_v_pen`: the held-out-treated
call (penalty_utils.py:92-101), the cross-fold call when `grad_splits` is
present (penalty_utils.py:126-133), or the leave-one-out call wrapped by
the MemoryError translation (penalty_utils.py:135-148). -/
def scalarPenCall (S : GradStrategies) (X Y : Mat)
    (tp : Option (Mat × Mat)) (hasGradSplits : Bool) (w : ℚ) :
    Except PenErr ℚ :=
  match tp with
  | some (XT, YT) => ctCall S X Y XT YT w
  | none =>
    if hasGradSplits then S.fold_v_matrix X Y w
    else looTranslate (S.loo_v_matrix X Y w)

/-- One iterable-`w_pen` dispatch of `get_max_v_pen`: a list comprehension
per branch (penalty_utils.py:105-117, 153-163, 166-182); on the
leave-one-out branch the `try/except` wraps the whole comprehension. -/
def iterPenCall (S : GradStrategies) (X Y : Mat)
    (tp : Option (Mat × Mat)) (hasGradSplits : Bool) (l : List ℚ) :
    Except PenErr (List ℚ) :=
  match tp with
  | some (XT, YT) => mapExcept (ctCall S X Y XT YT) l
  | none =>
    if hasGradSplits then mapExcept (S.fold_v_matrix X Y) l
    else looTranslate (mapExcept (S.loo_v_matrix X Y) l)

/-- Embeds `get_max_v_pen` (penalty_utils.py:32-182): parameter QC, `w_pen`
defaulting, then dispatch on treated data / `grad_splits` / scalar-vs-
iterable `w_pen`, with the MemoryError translation on the leave-one-out
paths only, exactly as in the source. -/
def getMaxVPen (S : GradStrategies) (X Y : Mat) (w_pen : WPen)
    (X_treat Y_treat : Option Mat) (hasGradSplits : Bool) :
    Except PenErr PenRes :=
  match penaltyQC X Y X_treat Y_treat with
  | some e => .error e
  | none =>
    match resolveWPen X w_pen with
    | .inl w =>
      (scalarPenCall S X Y (treatPair X_treat Y_treat) hasGradSplits w).map
        PenRes.scalar
    | .inr l =>
      (iterPenCall S X Y (treatPair X_treat Y_treat) hasGradSplits l).map
        PenRes.list

/-- Python's `result / v_pen` applied to what `get_max_v_pen` returned
(penalty_utils.py:30): a scalar divides; a list would raise a `TypeError`
(unsupported operand types). -/
def pyDivPenRes (r : PenRes) (v : ℚ) : Except PenErr PenRes :=
  match r with
  | .scalar q => .ok (.scalar (q / v))
  | .list _ => .error (.typeError "unsupported operand types for div: list and float")

/-- Embeds `get_max_w_pen` (penalty_utils.py:23-30):
`get_max_v_pen(X, Y, w_pen=1, **kwargs) / v_pen`. -/
def getMaxWPen (S : GradStrategies) (X Y : Mat) (v_pen : ℚ)
    (X_treat Y_treat : Option Mat) (hasGradSplits : Bool) :
    Except PenErr PenRes := do
  let r ← getMaxVPen S X Y (WPen.scalar 1) X_treat Y_treat hasGradSplits
  pyDivPenRes r v_pen

/-! ### Helper lemmas -/

/-- Bitwise AND of an integer with 0 is 0 (Python `0 & n == 0`). -/
theorem int_land_zero_left (n : Int) : Int.land 0 n = 0 := by
  cases n <;> simp [Int.land, Nat.ldiff, Nat.bitwise_zero_left]

/-- The branch condition at metrics_utils.py:174 is identically false:
`max_n_pl > (0 & n_pl)` and `(0 & n_pl) > max_n_pl` cannot both hold. -/
theorem placeboBranchCond_false (m n : Int) : placeboBranchCond m n = false := by
  simp only [placeboBranchCond, int_land_zero_left]
  by_cases h : 0 < m
  · simp [not_lt.mpr (le_of_lt h)]
  · simp [h]

/-- An accumulation of 0/1 indicator summands equals the count of elements
satisfying the predicate. -/
theorem foldl_indicator_count {α : Type} (p : α → Prop) [DecidablePred p]
    (l : List α) (acc : ℚ) :
    l.foldl (fun a x => a + (if p x then 1 else 0)) acc
      = acc + ((l.filter (fun x => decide (p x))).length : ℚ) := by
  induction l generalizing acc with
  | nil => simp
  | cons a l ih =>
    simp only [List.foldl_cons, List.filter_cons]
    by_cases h : p a
    · simp only [h, if_true, decide_eq_true_eq, ih, List.length_cons]
      push_cast
      ring
    · simp [h, ih]

/-- `getD` through a negation map. -/
theorem getD_map_neg (l : List ℚ) (n : Nat) :
    (l.map (fun x => -x)).getD n 0 = -(l.getD n 0) := by
  simp only [List.getD_eq_getElem?_getD, List.getElem?_map]
  cases l[n]? <;> simp

/-! ### C1 : sampling policy and comb_len -/

/-- C1: the claim fails in the code.  The branch guard at
metrics_utils.py:174 is identically false (first conjunct), so the engine
always takes the else-branch: at N0=2, N1=1, max_n_pl=1, the iterator is
`_random_combinations(2, 2, 1)` and `comb_len = 2 = C(2,1)`, although the
claim requires `comb_len = min(max_combinations, C(N0,N1)) = 1` and exact
enumeration otherwise. -/
theorem c1_comb_len_code_behaviour :
    (∀ m n : Int, placeboBranchCond m n = false) ∧
    placeboCombSetup 2 1 1 = (CombIter.randomCombinations 2 2 1, 2) ∧
    placeboCombLen 2 1 1 = 2 ∧
    min (1 : Int) (ncr 2 1) = 1 := by
  refine ⟨placeboBranchCond_false, ?_, ?_, ?_⟩
  · rw [placeboCombSetup, if_neg (by simp [placeboBranchCond_false])]
    decide
  · rw [placeboCombLen, placeboCombSetup,
      if_neg (by simp [placeboBranchCond_false])]
    decide
  · decide

/-! ### C2 : order-statistic indices of _gen_CI -/

/-- C2: the claim fails in the code.  With a placebo distribution of size
npl = 3 (e.g. N0=3, N1=1) and level = 0.95, the code computes
`alpha_ind = 1`, and the high-bound read `sorted_eff[(npl + 1) - alpha_ind]`
uses index 3, which is outside the valid range [0, npl-1] = [0, 2] of the
sorted length-3 array (numpy raises IndexError). -/
theorem c2_ci_index_out_of_range :
    alphaInd (95/100) 3 = 1 ∧
    genCIHighIndex 3 1 = 3 ∧
    ¬ (genCIHighIndex 3 1 < 3) := by
  refine ⟨?_, by decide, by decide⟩
  have h1 : ((1:ℚ) - 95/100) / (2 / ((3:ℕ) : ℚ)) = 3/40 := by norm_num
  have h2 : pyRound (3/40) = 0 := by
    have hf : (⌊(3:ℚ)/40⌋ : Int) = 0 := by
      rw [Int.floor_eq_iff] <;> norm_num
    rw [pyRound]
    simp only [hf]
    norm_num
  show max 1 (pyRound ((1 - 95/100) / (2 / ((3:ℕ) : ℚ)))) = 1
  rw [h1, h2]
  decide

/-! ### C3 : explicit validation of degenerate shapes -/

/-- C3: the claim fails in the code.  No explicit validation rejects the
degenerate shapes: with N0=3 < N1=5 (and also with T1=0) every explicit
check of `_gen_placebo_stats_from_diffs` passes, both without and with CI
requested at a valid level; the failure at N0=3, N1=5 is raised
incidentally by the library call `np.random.choice(3, 5, replace=False)`
inside the sampling loop, whose precondition 5 ≤ 3 fails. -/
theorem c3_no_explicit_shape_validation :
    placeboExplicitValidationRejects 3 5 1 false (95/100) = false ∧
    placeboExplicitValidationRejects 3 5 1 true (95/100) = false ∧
    placeboExplicitValidationRejects 5 2 0 false (95/100) = false ∧
    npRandomChoiceOk 3 5 = false := by
  refine ⟨rfl, ?_, rfl, by decide⟩
  simp only [placeboExplicitValidationRejects, levelAssertPasses]
  norm_num

/-! ### C4 : membership-test misuse -/

/-- C4: the claim fails in the code for vector-valued intervals.  On a
`CI_int` whose bounds are length-2 vectors, `x in ci` silently evaluates to
`True`: the body returns (instead of raising) a `RuntimeError` instance,
and Python truthiness of that object is `True`.  On an `EstResultCI`
without an interval the claim holds: the body raises. -/
theorem c4_contains_misuse_behaviour :
    CIIntIn (PyVal.vector [0, 1]) (PyVal.vector [2, 3]) 5 = Except.ok true ∧
    estResultCIIn none 5
      = Except.error "EstResultCI does not contain a confidence interval" := by
  exact ⟨rfl, rfl⟩

/-! ### C5 : MemoryError translation in getMaxVPen -/

/-- With no treated data, the parameter QC never produces a MemoryError. -/
theorem penaltyQC_none_ne_mem (X Y : Mat) (e : PenErr) :
    penaltyQC X Y none none = some e → e ≠ PenErr.memoryError := by
  rw [penaltyQC]
  split_ifs <;> intro h <;>
    first
      | (injection h with h2; subst h2; simp)
      | simp at h
  all_goals (intro XT YT h1 h2; cases h1)

/-- The leave-one-out wrapper never lets a MemoryError through. -/
theorem looTranslate_map_ne_mem {α β : Type} (r : Except PenErr α)
    (f : α → β) :
    (looTranslate r).map f ≠ Except.error PenErr.memoryError := by
  cases r with
  | ok a => simp [looTranslate, Except.map]
  | error e => cases e <;> simp [looTranslate, Except.map]

/-- Reduction of `treatPair` with no treated data. -/
theorem treatPair_none_none : treatPair none none = none := rfl

/-- Reduction of `looTranslate` on the MemoryError signal. -/
theorem looTranslate_mem {α : Type} :
    (looTranslate (Except.error PenErr.memoryError) : Except PenErr α)
      = Except.error (PenErr.runtimeError looMemMsg) := rfl

/-- Reduction of `Except.map` on a failure. -/
theorem except_map_error {α β : Type} (f : α → β) (e : PenErr) :
    (Except.map f (Except.error e) : Except PenErr β) = Except.error e := rfl

/-- Reduction of `Except.map` on a success. -/
theorem except_map_ok {α β : Type} (f : α → β) (a : α) :
    (Except.map f (Except.ok a) : Except PenErr β) = Except.ok (f a) := rfl

/-- Strategy set whose cross-fold member signals resource exhaustion. -/
def demoFoldMem : GradStrategies :=
  ⟨fun _ _ w => .ok w, fun _ _ _ => .error .memoryError,
   fun _ _ _ _ w => .ok w⟩

/-- Strategy set whose leave-one-out member signals resource exhaustion. -/
def demoLooMem : GradStrategies :=
  ⟨fun _ _ _ => .error .memoryError, fun _ _ w => .ok w,
   fun _ _ _ _ w => .ok w⟩

/-- C5 counterexample: the claim, as stated, is false at a concrete input.
When the cross-fold strategy (selected by supplying `grad_splits`) signals
a MemoryError on X = Y = [[1]], w_pen = 1, `get_max_v_pen` propagates the
MemoryError to the caller untranslated: the `try/except` in the source
wraps only the leave-one-out calls. -/
theorem c5_counterexample :
    getMaxVPen demoFoldMem [[1]] [[1]] (WPen.scalar 1) none none true
      = Except.error PenErr.memoryError := by
  rfl

/-- C5 amended: only the leave-one-out strategy sits behind the
error-translation boundary.  (a) without `grad_splits` and without treated
data, `get_max_v_pen` never surfaces a MemoryError, for scalar or iterable
`w_pen`; (b) a MemoryError from the leave-one-out strategy is translated
into the RuntimeError advising `grad_splits`; (c) a MemoryError from the
cross-fold strategy propagates unchanged. -/
theorem c5_amended_loo_translation :
    (∀ (S : GradStrategies) (X Y : Mat) (w_pen : WPen),
      getMaxVPen S X Y w_pen none none false
        ≠ Except.error PenErr.memoryError) ∧
    (∀ (S : GradStrategies) (X Y : Mat) (w : ℚ),
      penaltyQC X Y none none = none →
      S.loo_v_matrix X Y w = Except.error PenErr.memoryError →
      getMaxVPen S X Y (WPen.scalar w) none none false
        = Except.error (PenErr.runtimeError looMemMsg)) ∧
    (∀ (S : GradStrategies) (X Y : Mat) (w : ℚ),
      penaltyQC X Y none none = none →
      S.fold_v_matrix X Y w = Except.error PenErr.memoryError →
      getMaxVPen S X Y (WPen.scalar w) none none true
        = Except.error PenErr.memoryError) := by
  refine ⟨?_, ?_, ?_⟩
  · intro S X Y w_pen
    cases hqc : penaltyQC X Y none none with
    | some e =>
      have he := penaltyQC_none_ne_mem X Y e hqc
      simp [getMaxVPen, hqc, he]
    | none =>
      simp only [getMaxVPen, hqc]
      cases hr : resolveWPen X w_pen with
      | inl w =>
        simp only [hr, treatPair_none_none, scalarPenCall,
          Bool.false_eq_true, if_false]
        exact looTranslate_map_ne_mem _ _
      | inr l =>
        simp only [hr, treatPair_none_none, iterPenCall,
          Bool.false_eq_true, if_false]
        exact looTranslate_map_ne_mem _ _
  · intro S X Y w hqc hloo
    simp only [getMaxVPen, hqc, resolveWPen, treatPair_none_none,
      scalarPenCall, Bool.false_eq_true, if_false, hloo, looTranslate_mem,
      except_map_error]
  · intro S X Y w hqc hfold
    simp only [getMaxVPen, hqc, resolveWPen, treatPair_none_none,
      scalarPenCall, if_true, hfold, except_map_error]

/-- C5 witness: the amended theorem applied at X = Y = [[1]], w = 1, with
the demo strategy sets. -/
theorem c5_witness :
    (penaltyQC [[1]] [[1]] none none = none ∧
      demoLooMem.loo_v_matrix [[1]] [[1]] 1 = Except.error PenErr.memoryError ∧
      getMaxVPen demoLooMem [[1]] [[1]] (WPen.scalar 1) none none false
        = Except.error (PenErr.runtimeError looMemMsg)) ∧
    (demoFoldMem.fold_v_matrix [[1]] [[1]] 1 = Except.error PenErr.memoryError ∧
      getMaxVPen demoFoldMem [[1]] [[1]] (WPen.scalar 1) none none true
        = Except.error PenErr.memoryError) := by
  refine ⟨⟨rfl, rfl, ?_⟩, rfl, ?_⟩
  · exact c5_amended_loo_translation.2.1 demoLooMem [[1]] [[1]] 1 rfl rfl
  · exact c5_amended_loo_translation.2.2 demoFoldMem [[1]] [[1]] 1 rfl rfl

/-! ### C6 : p-value formula and range -/

/-- C6: `_calculate_p_value` returns `(count + 1) / (comb_len + 1)` under
the default inclusive convention and `count / comb_len` under the
non-inclusive one; under the inclusive convention the p-value lies in
`[1/(comb_len+1), 1]` and equals exactly 1 when `count = comb_len`. -/
theorem c6_p_value_formula_and_range :
    ∀ (count npl : ℕ), count ≤ npl → 1 ≤ npl →
    calculatePValue (count : ℚ) (npl : ℚ) true
        = ((count : ℚ) + 1) / ((npl : ℚ) + 1) ∧
    calculatePValue (count : ℚ) (npl : ℚ) false = (count : ℚ) / (npl : ℚ) ∧
    1 / ((npl : ℚ) + 1) ≤ calculatePValue (count : ℚ) (npl : ℚ) true ∧
    calculatePValue (count : ℚ) (npl : ℚ) true ≤ 1 ∧
    (count = npl → calculatePValue (count : ℚ) (npl : ℚ) true = 1) := by
  intro count npl hle hpos
  have hd : (0 : ℚ) < (npl : ℚ) + 1 := by positivity
  refine ⟨rfl, by simp [calculatePValue], ?_, ?_, ?_⟩
  · rw [calculatePValue]
    simp only [if_true]
    rw [div_le_div_iff_of_pos_right hd]
    have : (0 : ℚ) ≤ (count : ℚ) := by positivity
    linarith
  · rw [calculatePValue]
    simp only [if_true]
    rw [div_le_one hd]
    have : (count : ℚ) ≤ (npl : ℚ) := by exact_mod_cast hle
    linarith
  · intro h
    subst h
    rw [calculatePValue]
    simp only [if_true]
    exact div_self (ne_of_gt hd)

/-- C6 witness: the theorem applied at count = 2, comb_len = 3. -/
theorem c6_witness :
    (2 : ℕ) ≤ 3 ∧ (1 : ℕ) ≤ 3 ∧
    (calculatePValue ((2 : ℕ) : ℚ) ((3 : ℕ) : ℚ) true
        = (((2 : ℕ) : ℚ) + 1) / (((3 : ℕ) : ℚ) + 1) ∧
      calculatePValue ((2 : ℕ) : ℚ) ((3 : ℕ) : ℚ) false
        = ((2 : ℕ) : ℚ) / ((3 : ℕ) : ℚ) ∧
      1 / (((3 : ℕ) : ℚ) + 1) ≤ calculatePValue ((2 : ℕ) : ℚ) ((3 : ℕ) : ℚ) true ∧
      calculatePValue ((2 : ℕ) : ℚ) ((3 : ℕ) : ℚ) true ≤ 1 ∧
      ((2 : ℕ) = 3 → calculatePValue ((2 : ℕ) : ℚ) ((3 : ℕ) : ℚ) true = 1)) :=
  ⟨by norm_num, by norm_num,
    c6_p_value_formula_and_range 2 3 (by norm_num) (by norm_num)⟩

/-! ### C7 : extremeness counters of the placebo loop -/

/-- C7: each counter accumulated over the placebo loop equals the number of
draws at least as extreme as the observed statistic under the intended
test — two-sided absolute comparison for the per-period vector and for the
average aggregate, one-sided for the RMS aggregate — and a placebo draw of
equal magnitude but opposite sign to the observed vector or average effect
increments the corresponding counter. -/
theorem c7_counter_semantics :
    ∀ (rmsL avgL : List ℚ) (vecs : List (List ℚ)) (ev : List ℚ)
      (rms avg : ℚ) (t : ℕ),
    rmsCounter rmsL rms
        = ((rmsL.filter (fun p => decide (rms ≤ p))).length : ℚ) ∧
    avgCounter avgL avg
        = ((avgL.filter (fun p => decide (|avg| ≤ |p|))).length : ℚ) ∧
    vecCounterAt vecs ev t
        = ((vecs.filter
            (fun pv => decide (|ev.getD t 0| ≤ |pv.getD t 0|))).length : ℚ) ∧
    avgCounter (avgL ++ [-avg]) avg = avgCounter avgL avg + 1 ∧
    vecCounterAt (vecs ++ [ev.map (fun x => -x)]) ev t
        = vecCounterAt vecs ev t + 1 := by
  intro rmsL avgL vecs ev rms avg t
  refine ⟨?_, ?_, ?_, ?_, ?_⟩
  · rw [rmsCounter, foldl_indicator_count (fun p => rms ≤ p)]
    simp
  · rw [avgCounter, foldl_indicator_count (fun p => |avg| ≤ |p|)]
    simp
  · rw [vecCounterAt,
      foldl_indicator_count (fun pv : List ℚ => |ev.getD t 0| ≤ |pv.getD t 0|)]
    simp
  · rw [avgCounter, avgCounter, List.foldl_append]
    simp [abs_neg]
  · rw [vecCounterAt, vecCounterAt, List.foldl_append]
    simp only [List.foldl_cons, List.foldl_nil, getD_map_neg, abs_neg,
      le_refl, if_true]

/-! ### C8 : degenerate-CI warning -/

/-- Value of `np.sign` on a positive scalar. -/
theorem npSign_of_pos {q : ℚ} (h : 0 < q) : npSign q = 1 := by
  rw [npSign, if_pos h]

/-- Value of `np.sign` on a negative scalar. -/
theorem npSign_of_neg {q : ℚ} (h : q < 0) : npSign q = -1 := by
  rw [npSign, if_neg (by linarith), if_pos h]

/-- Characterisation of a shared sign, with `np.sign` unfolded. -/
theorem npSign_eq_iff_same_sign (l h : ℚ) :
    (npSign l = npSign h ∧ l ≠ 0 ∧ h ≠ 0) ↔
      (l ≠ 0 ∧ h ≠ 0 ∧ ((0 < l ∧ 0 < h) ∨ (l < 0 ∧ h < 0))) := by
  constructor
  · rintro ⟨hs, hl, hh⟩
    refine ⟨hl, hh, ?_⟩
    rcases lt_trichotomy l 0 with h1 | h1 | h1
    · rcases lt_trichotomy h 0 with h2 | h2 | h2
      · exact Or.inr ⟨h1, h2⟩
      · exact absurd h2 hh
      · rw [npSign_of_neg h1, npSign_of_pos h2] at hs
        norm_num at hs
    · exact absurd h1 hl
    · rcases lt_trichotomy h 0 with h2 | h2 | h2
      · rw [npSign_of_pos h1, npSign_of_neg h2] at hs
        norm_num at hs
      · exact absurd h2 hh
      · exact Or.inl ⟨h1, h2⟩
  · rintro ⟨hl, hh, hcase | hcase⟩
    · exact ⟨by rw [npSign_of_pos hcase.1, npSign_of_pos hcase.2], hl, hh⟩
    · exact ⟨by rw [npSign_of_neg hcase.1, npSign_of_neg hcase.2], hl, hh⟩

/-- C8: the domain warning of `_gen_CI` fires for the per-period vector
interval and for the average-effect interval exactly when both order-
statistic bounds are nonzero and share the same sign; it never fires for
the RMS interval (called with `null_is_zero=False`); and in every case the
interval `(effect - high, effect - low)` is still computed and returned
(the warning is non-fatal). -/
theorem c8_degenerate_ci_warning :
    ∀ (pl col : List ℚ) (a : ℕ) (eff effv : ℚ),
    ((genCIVecCall col a effv).2 = true ↔
      (genCILow col a ≠ 0 ∧ genCIHigh col a ≠ 0 ∧
        ((0 < genCILow col a ∧ 0 < genCIHigh col a) ∨
          (genCILow col a < 0 ∧ genCIHigh col a < 0)))) ∧
    ((genCIAvgCall pl a eff).2 = true ↔
      (genCILow pl a ≠ 0 ∧ genCIHigh pl a ≠ 0 ∧
        ((0 < genCILow pl a ∧ 0 < genCIHigh pl a) ∨
          (genCILow pl a < 0 ∧ genCIHigh pl a < 0)))) ∧
    (genCIRmsCall pl a eff).2 = false ∧
    (genCIVecCall col a effv).1
        = (effv - genCIHigh col a, effv - genCILow col a) ∧
    (genCIAvgCall pl a eff).1
        = (eff - genCIHigh pl a, eff - genCILow pl a) ∧
    (genCIRmsCall pl a eff).1
        = (eff - genCIHigh pl a, eff - genCILow pl a) := by
  intro pl col a eff effv
  refine ⟨?_, ?_, by simp [genCIRmsCall, genCI], rfl, rfl, rfl⟩
  · rw [← npSign_eq_iff_same_sign]
    simp [genCIVecCall, genCI, Bool.and_eq_true, decide_eq_true_eq, and_assoc]
  · rw [← npSign_eq_iff_same_sign]
    simp [genCIAvgCall, genCI, Bool.and_eq_true, decide_eq_true_eq, and_assoc]

/-! ### C9 : the rescaling invariant of get_max_w_pen -/

/-- C9: `get_max_w_pen(X, Y, v_pen)` times `v_pen` equals
`get_max_v_pen(X, Y, w_pen=1)` with the same options, for every positive
`v_pen` (exact arithmetic): whenever `get_max_w_pen` returns a scalar
bound q, the `w_pen=1` call returns exactly `q * v_pen`. -/
theorem c9_rescaling_invariant :
    ∀ (S : GradStrategies) (X Y : Mat) (Xt Yt : Option Mat) (g : Bool)
      (v_pen q : ℚ), 0 < v_pen →
    getMaxWPen S X Y v_pen Xt Yt g = Except.ok (PenRes.scalar q) →
    getMaxVPen S X Y (WPen.scalar 1) Xt Yt g
      = Except.ok (PenRes.scalar (q * v_pen)) := by
  intro S X Y Xt Yt g v_pen q hv h
  rw [getMaxWPen] at h
  cases hr : getMaxVPen S X Y (WPen.scalar 1) Xt Yt g with
  | error e => rw [hr] at h; simp [Bind.bind, Except.bind] at h
  | ok r =>
    rw [hr] at h
    cases r with
    | scalar a =>
      simp only [Bind.bind, Except.bind, pyDivPenRes, Except.ok.injEq,
        PenRes.scalar.injEq] at h
      subst h
      rw [div_mul_cancel₀ a (ne_of_gt hv)]
    | list l => simp [Bind.bind, Except.bind, pyDivPenRes] at h

/-- Strategy set returning simple closed-form bounds, used as a concrete
instantiation for the witnesses. -/
def demoStrategies : GradStrategies :=
  ⟨fun _ _ w => .ok (w * 4), fun _ _ w => .ok (w + 10),
   fun _ _ _ _ w => .ok (w + 7)⟩

/-- C9 witness: the rescaling theorem at X = Y = [[1]], v_pen = 2, with the
demo strategies (leave-one-out branch, bound 4 at w_pen = 1). -/
theorem c9_witness :
    (0 : ℚ) < 2 ∧
    getMaxWPen demoStrategies [[1]] [[1]] 2 none none false
      = Except.ok (PenRes.scalar 2) ∧
    getMaxVPen demoStrategies [[1]] [[1]] (WPen.scalar 1) none none false
      = Except.ok (PenRes.scalar (2 * 2)) := by
  have h1 : getMaxWPen demoStrategies [[1]] [[1]] 2 none none false
      = Except.ok (PenRes.scalar 2) := by
    rw [show (Except.ok (PenRes.scalar 2) : Except PenErr PenRes)
        = Except.ok (PenRes.scalar ((1 * 4) / 2)) by norm_num]
    rfl
  exact ⟨by norm_num, h1,
    c9_rescaling_invariant demoStrategies [[1]] [[1]] none none false 2 2
      (by norm_num) h1⟩

/-! ### C10 : elementwise semantics of an iterable w_pen -/

/-- A successful traversal determines each element: the i-th output is the
result of applying the call to the i-th input. -/
theorem mapExcept_ok_spec (f : ℚ → Except PenErr ℚ) :
    ∀ (l rs : List ℚ), mapExcept f l = Except.ok rs →
    rs.length = l.length ∧
    ∀ i, i < l.length → f (l.getD i 0) = Except.ok (rs.getD i 0) := by
  intro l
  induction l with
  | nil =>
    intro rs h
    rw [mapExcept] at h
    cases h
    simp
  | cons a l ih =>
    intro rs h
    rw [mapExcept] at h
    cases hfa : f a with
    | error e => rw [hfa] at h; simp [Bind.bind, Except.bind] at h
    | ok b =>
      rw [hfa] at h
      cases hml : mapExcept f l with
      | error e => rw [hml] at h; simp [Bind.bind, Except.bind] at h
      | ok bs =>
        rw [hml] at h
        simp only [Bind.bind, Except.bind, pure, Except.pure,
          Except.ok.injEq] at h
        subst h
        obtain ⟨hlen, hget⟩ := ih bs hml
        refine ⟨by simp [hlen], ?_⟩
        intro i hi
        cases i with
        | zero => simpa using hfa
        | succ j =>
          simp only [List.getD_cons_succ]
          exact hget j (by simpa using hi)

/-- `looTranslate` returns ok exactly when its argument was ok. -/
theorem looTranslate_ok_iff {α : Type} (r : Except PenErr α) (a : α) :
    looTranslate r = Except.ok a ↔ r = Except.ok a := by
  cases r with
  | ok b => simp [looTranslate]
  | error e => cases e <;> simp [looTranslate]

/-- A successful iterable dispatch determines each element: the i-th output
is what the scalar dispatch produces on the i-th input, in all three
branches. -/
theorem iterPenCall_ok_spec (S : GradStrategies) (X Y : Mat)
    (tp : Option (Mat × Mat)) (g : Bool) (l rs : List ℚ)
    (h : iterPenCall S X Y tp g l = Except.ok rs) :
    rs.length = l.length ∧
    ∀ i, i < l.length →
      scalarPenCall S X Y tp g (l.getD i 0) = Except.ok (rs.getD i 0) := by
  cases tp with
  | some p =>
    obtain ⟨XT, YT⟩ := p
    rw [iterPenCall] at h
    obtain ⟨hlen, hget⟩ := mapExcept_ok_spec _ l rs h
    exact ⟨hlen, fun i hi => by rw [scalarPenCall]; exact hget i hi⟩
  | none =>
    cases g with
    | true =>
      rw [iterPenCall, if_pos rfl] at h
      obtain ⟨hlen, hget⟩ := mapExcept_ok_spec _ l rs h
      exact ⟨hlen, fun i hi => by
        rw [scalarPenCall, if_pos rfl]; exact hget i hi⟩
    | false =>
      rw [iterPenCall, if_neg (by simp)] at h
      rw [looTranslate_ok_iff] at h
      obtain ⟨hlen, hget⟩ := mapExcept_ok_spec _ l rs h
      refine ⟨hlen, fun i hi => ?_⟩
      rw [scalarPenCall, if_neg (by simp), hget i hi]
      rfl

/-- C10: when `get_max_v_pen` is called with an iterable `w_pen` and
returns a list, that list has the same length as the input and its i-th
element is exactly what the separate scalar call with `w_pen[i]` (same X,
Y, treated data and options) returns — in all three dispatch branches. -/
theorem c10_iter_elementwise :
    ∀ (S : GradStrategies) (X Y : Mat) (Xt Yt : Option Mat) (g : Bool)
      (ws rs : List ℚ),
    getMaxVPen S X Y (WPen.iter ws) Xt Yt g = Except.ok (PenRes.list rs) →
    rs.length = ws.length ∧
    ∀ i, i < ws.length →
      getMaxVPen S X Y (WPen.scalar (ws.getD i 0)) Xt Yt g
        = Except.ok (PenRes.scalar (rs.getD i 0)) := by
  intro S X Y Xt Yt g ws rs h
  cases hqc : penaltyQC X Y Xt Yt with
  | some e => simp [getMaxVPen, hqc] at h
  | none =>
    simp only [getMaxVPen, hqc, resolveWPen] at h
    cases hit : iterPenCall S X Y (treatPair Xt Yt) g ws with
    | error e => rw [hit, except_map_error] at h; cases h
    | ok l =>
      rw [hit, except_map_ok] at h
      injection h with h2
      injection h2 with h3
      subst h3
      obtain ⟨hlen, hget⟩ :=
        iterPenCall_ok_spec S X Y (treatPair Xt Yt) g ws l hit
      refine ⟨hlen, fun i hi => ?_⟩
      simp only [getMaxVPen, hqc, resolveWPen, hget i hi, except_map_ok]

/-- C10 witness: the elementwise theorem at X = Y = [[1]],
w_pen = [1, 2], leave-one-out branch of the demo strategies, whose list
result is [4, 8]. -/
theorem c10_witness :
    getMaxVPen demoStrategies [[1]] [[1]] (WPen.iter [1, 2]) none none false
      = Except.ok (PenRes.list [4, 8]) ∧
    ([4, 8] : List ℚ).length = ([1, 2] : List ℚ).length ∧
    getMaxVPen demoStrategies [[1]] [[1]]
        (WPen.scalar (([1, 2] : List ℚ).getD 0 0)) none none false
      = Except.ok (PenRes.scalar (([4, 8] : List ℚ).getD 0 0)) ∧
    getMaxVPen demoStrategies [[1]] [[1]]
        (WPen.scalar (([1, 2] : List ℚ).getD 1 0)) none none false
      = Except.ok (PenRes.scalar (([4, 8] : List ℚ).getD 1 0)) := by
  have h0 : getMaxVPen demoStrategies [[1]] [[1]] (WPen.iter [1, 2])
      none none false = Except.ok (PenRes.list [4, 8]) := by
    rw [show (Except.ok (PenRes.list [4, 8]) : Except PenErr PenRes)
        = Except.ok (PenRes.list [1 * 4, 2 * 4]) by norm_num]
    rfl
  refine ⟨h0, ?_, ?_, ?_⟩
  · exact (c10_iter_elementwise demoStrategies [[1]] [[1]] none none false
      [1, 2] [4, 8] h0).1
  · exact (c10_iter_elementwise demoStrategies [[1]] [[1]] none none false
      [1, 2] [4, 8] h0).2 0 (by norm_num)
  · exact (c10_iter_elementwise demoStrategies [[1]] [[1]] none none false
      [1, 2] [4, 8] h0).2 1 (by norm_num)
